import Mathlib

/-!
Verification of the Flick pedal firmware (Funbox DSP platform) against its
natural-language specification.  The C++ sources are shallowly embedded:
float arithmetic is modelled over the rationals (decimal literals taken at
face value), stateful objects become explicit state records with
state-passing functions, and hardware reads (knobs, switches, the
millisecond clock) are supplied through an explicit environment record.
-/

namespace Flick

/-! ## KnobCapture (parameter_capture.cpp) -/

/-- State of flick::KnobCapture, parameter_capture.cpp lines 26-60.
Fields mirror captured_knob_value_, frozen_value_, is_frozen_, threshold_. -/
structure KnobCapture where
  captured_knob_value : ℚ
  frozen_value : ℚ
  is_frozen : Bool
  threshold : ℚ
deriving DecidableEq, Repr

/-- KnobCapture::Capture (lines 33-37).  The knob argument is the live
reading returned by knob_.Process() at capture time. -/
def KnobCapture.Capture (s : KnobCapture) (knob frozen : ℚ) : KnobCapture :=
  { s with captured_knob_value := knob, frozen_value := frozen, is_frozen := true }

/-- KnobCapture::Process (lines 39-56).  Takes the current live knob
reading, returns the produced value together with the updated state. -/
def KnobCapture.Process (s : KnobCapture) (current : ℚ) : ℚ × KnobCapture :=
  if s.is_frozen = false then
    (current, s)
  else if |current - s.captured_knob_value| ≥ s.threshold then
    (current, { s with is_frozen := false })
  else
    (s.frozen_value, s)

/-- KnobCapture::Reset (lines 58-60). -/
def KnobCapture.Reset (s : KnobCapture) : KnobCapture :=
  { s with is_frozen := false }

/-- Modelled from the spec: KnobCapture::IsFrozen is used by flick.cpp
(exitTapTempo, AudioCallback) but its declaration is not among the
sources; it reports the is_frozen_ flag. -/
def KnobCapture.IsFrozen (s : KnobCapture) : Bool :=
  s.is_frozen

/-- Repeated KnobCapture::Process calls over a list of successive live
knob readings, collecting the produced values. -/
def KnobCapture.ProcessList (s : KnobCapture) : List ℚ → List ℚ × KnobCapture
  | [] => ([], s)
  | r :: rs =>
    let p := s.Process r
    let q := p.2.ProcessList rs
    (p.1 :: q.1, q.2)

/-! ## HallReverb::SetDecay and the Hadamard butterfly (hall_reverb) -/

/-- HallReverb::SetDecay, hall_reverb.cpp lines 142-144: the stored decay
coefficient (used as the per-line feedback multiplier in the FDN write at
line 120). -/
def HallReverb.SetDecay (decay : ℚ) : ℚ :=
  if decay > 999/1000 then 999/1000 else if decay < 0 then 0 else decay

/-- kHadamardNorm, hall_reverb.h line 50. -/
def kHadamardNorm : ℚ := 35355339/100000000

/-- An 8-component vector of samples, the argument of
HallReverb::hadamardTransform. -/
@[ext]
structure Vec8 (α : Type) where
  x0 : α
  x1 : α
  x2 : α
  x3 : α
  x4 : α
  x5 : α
  x6 : α
  x7 : α
deriving DecidableEq, Repr

/-- The three butterfly stages of HallReverb::hadamardTransform,
hall_reverb.cpp lines 186-201 (everything before the normalization
loop).  Stage 1 pairs indices (0,1)(2,3)(4,5)(6,7), stage 2 pairs at
stride 2 within each half, stage 3 pairs at stride 4. -/
def hadamardButterfly {α : Type} [CommRing α] (v : Vec8 α) : Vec8 α :=
  let y0 := v.x0 + v.x1
  let y1 := v.x0 - v.x1
  let y2 := v.x2 + v.x3
  let y3 := v.x2 - v.x3
  let y4 := v.x4 + v.x5
  let y5 := v.x4 - v.x5
  let y6 := v.x6 + v.x7
  let y7 := v.x6 - v.x7
  let z0 := y0 + y2
  let z2 := y0 - y2
  let z1 := y1 + y3
  let z3 := y1 - y3
  let z4 := y4 + y6
  let z6 := y4 - y6
  let z5 := y5 + y7
  let z7 := y5 - y7
  ⟨z0 + z4, z1 + z5, z2 + z6, z3 + z7, z0 - z4, z1 - z5, z2 - z6, z3 - z7⟩

/-- The final loop of hadamardTransform (lines 202-203): every component
multiplied by the constant c. -/
def hadamardScale {α : Type} [CommRing α] (c : α) (v : Vec8 α) : Vec8 α :=
  ⟨v.x0 * c, v.x1 * c, v.x2 * c, v.x3 * c, v.x4 * c, v.x5 * c, v.x6 * c, v.x7 * c⟩

/-- HallReverb::hadamardTransform, hall_reverb.cpp lines 186-204, with the
normalization constant left as a parameter c (the source uses
kHadamardNorm, a float approximation of 1/sqrt 8). -/
def hadamardTransform {α : Type} [CommRing α] (c : α) (v : Vec8 α) : Vec8 α :=
  hadamardScale c (hadamardButterfly v)

/-! ## DelayEffect delay-time smoothing (delay_effect.cpp) -/

/-- daisysp::fonepole, the one-pole smoother used by
DelayEffect::ProcessSample: out += coeff * (in - out). -/
def fonepole (out_ in_ coeff : ℚ) : ℚ :=
  out_ + coeff * (in_ - out_)

/-- The update applied to the internal current delay (read position) by
each DelayEffect::ProcessSample call, delay_effect.cpp lines 84-85:
fonepole(current, target, 0.0002).  The rest of ProcessSample (delay-line
reads and feedback writes) does not touch the current-delay fields, and
SetDelayTime (lines 104-106) only stores the target. -/
def DelayEffect.smoothStep (target current : ℚ) : ℚ :=
  fonepole current target (2/10000)

/-- The internal current delay after n ProcessSample calls following
SetDelayTime(target), starting from current delay c0. -/
def DelayEffect.currentAfter (target c0 : ℚ) : ℕ → ℚ
  | 0 => c0
  | n + 1 => DelayEffect.smoothStep target (DelayEffect.currentAfter target c0 n)

/-! ## FlickOscillator and the sine / square tremolos

The oscillator and the tremolos evaluate sinf and atanf; those
transcendental functions are passed in as parameters of the embedding, so
every theorem below holds for an arbitrary interpretation of them. -/

/-- PI_F, flick_oscillator.cpp line 5: the exact value of the float
literal 3.1415927410125732421875f. -/
def PI_F : ℚ := 31415927410125732421875/10000000000000000000000

/-- TWOPI_F, flick_oscillator.cpp line 6. -/
def TWOPI_F : ℚ := 2 * PI_F

inductive Waveform
  | WAVE_SIN
  | WAVE_SQUARE_ROUNDED
deriving DecidableEq, Repr

/-- State of flick::FlickOscillator (flick_oscillator.cpp; waveform_,
phase_, phase_inc_, amp_, sr_recip_, eoc_, eor_). -/
structure FlickOscillator where
  waveform : Waveform
  phase : ℚ
  phase_inc : ℚ
  amp : ℚ
  sr_recip : ℚ
  eoc : Bool
  eor : Bool
deriving DecidableEq, Repr

/-- FlickOscillator::CalcPhaseInc, flick_oscillator.cpp line 39. -/
def FlickOscillator.CalcPhaseInc (s : FlickOscillator) (f : ℚ) : ℚ :=
  f * s.sr_recip

/-- Modelled from the spec: flick_oscillator.h is not among the sources;
SetFreq stores the phase increment computed by CalcPhaseInc. -/
def FlickOscillator.SetFreq (s : FlickOscillator) (f : ℚ) : FlickOscillator :=
  { s with phase_inc := s.CalcPhaseInc f }

/-- Modelled from the spec: flick_oscillator.h is not among the sources;
SetAmp stores the amplitude. -/
def FlickOscillator.SetAmp (s : FlickOscillator) (a : ℚ) : FlickOscillator :=
  { s with amp := a }

/-- FlickOscillator::Process, flick_oscillator.cpp lines 10-37.  Returns
the produced sample (out * amp_) and the advanced state.  Division is
total with junk value 0, standing in for the float 0/0 corner. -/
def FlickOscillator.Process (sinf atanf : ℚ → ℚ) (s : FlickOscillator) :
    ℚ × FlickOscillator :=
  let out :=
    match s.waveform with
    | Waveform.WAVE_SIN => sinf (s.phase * TWOPI_F)
    | Waveform.WAVE_SQUARE_ROUNDED =>
      let delta : ℚ := 4/100
      let scale := s.amp * atanf (1 / delta)
      (s.amp / scale) * atanf (sinf (TWOPI_F * s.phase) / delta)
  let phase1 := s.phase + s.phase_inc
  if phase1 > 1 then
    let phase2 := phase1 - 1
    (out * s.amp,
     { s with phase := phase2, eoc := true,
              eor := decide (phase2 - s.phase_inc < 1/2 ∧ 1/2 ≤ phase2) })
  else
    (out * s.amp,
     { s with phase := phase1, eoc := false,
              eor := decide (phase1 - s.phase_inc < 1/2 ∧ 1/2 ≤ phase1) })

/-- State of flick::SineTremolo: the TremoloEffect base fields
(tremolo_effect.h lines 287-290) plus osc_ and dc_offset_. -/
structure SineTremolo where
  osc : FlickOscillator
  dc_offset : ℚ
  speed : ℚ
  depth : ℚ
  last_lfo_value : ℚ
  sample_rate : ℚ
deriving DecidableEq, Repr

/-- State of flick::SquareTremolo (same layout as SineTremolo, distinct
class in the source). -/
structure SquareTremolo where
  osc : FlickOscillator
  dc_offset : ℚ
  speed : ℚ
  depth : ℚ
  last_lfo_value : ℚ
  sample_rate : ℚ
deriving DecidableEq, Repr

/-- TremoloEffect::SetDepth (tremolo_effect.h line 277), inherited
unchanged by SineTremolo and SquareTremolo. -/
def SineTremolo.SetDepth (s : SineTremolo) (depth : ℚ) : SineTremolo :=
  { s with depth := depth }

/-- TremoloEffect::SetDepth for the square variant. -/
def SquareTremolo.SetDepth (s : SquareTremolo) (depth : ℚ) : SquareTremolo :=
  { s with depth := depth }

/-- SineTremolo::ProcessSample, tremolo_effect.cpp lines 49-65.  Returns
the stereo output pair and the updated state. -/
def SineTremolo.ProcessSample (sinf atanf : ℚ → ℚ) (s : SineTremolo)
    (in_L in_R : ℚ) : (ℚ × ℚ) × SineTremolo :=
  let osc1 := s.osc.SetFreq s.speed
  let scaled_depth := s.depth * (1/2)
  let osc2 := osc1.SetAmp scaled_depth
  let dc := 1 - scaled_depth
  let p := osc2.Process sinf atanf
  let last := dc + p.1
  ((in_L * last, in_R * last),
   { s with osc := p.2, dc_offset := dc, last_lfo_value := last })

/-- SquareTremolo::ProcessSample, tremolo_effect.cpp lines 78-94. -/
def SquareTremolo.ProcessSample (sinf atanf : ℚ → ℚ) (s : SquareTremolo)
    (in_L in_R : ℚ) : (ℚ × ℚ) × SquareTremolo :=
  let osc1 := s.osc.SetFreq s.speed
  let scaled_depth := s.depth * (1/2)
  let osc2 := osc1.SetAmp scaled_depth
  let dc := 1 - scaled_depth
  let p := osc2.Process sinf atanf
  let last := dc + p.1
  ((in_L * last, in_R * last),
   { s with osc := p.2, dc_offset := dc, last_lfo_value := last })

/-- TremoloEffect::GetLastLFOValue (tremolo_effect.h line 284). -/
def SineTremolo.GetLastLFOValue (s : SineTremolo) : ℚ :=
  s.last_lfo_value

/-- TremoloEffect::GetLastLFOValue for the square variant. -/
def SquareTremolo.GetLastLFOValue (s : SquareTremolo) : ℚ :=
  s.last_lfo_value

/-! ## Orchestrator constants, enums and switch maps (flick.cpp) -/

/-- SETTINGS_VERSION, flick.cpp line 223. -/
def SETTINGS_VERSION : ℤ := 8

/-- SAMPLE_RATE, flick.cpp line 226. -/
def SAMPLE_RATE : ℚ := 48000

/-- MAX_DELAY, flick.cpp line 227: static cast of 48000 * 2.0 to size_t. -/
def MAX_DELAY : ℚ := 96000

/-- DELAY_TIME_MIN_SECONDS, flick.cpp line 268. -/
def DELAY_TIME_MIN_SECONDS : ℚ := 5/100

/-- TAP_TEMPO_TIMEOUT_MS, flick.cpp line 273 (milliseconds). -/
def TAP_TEMPO_TIMEOUT_MS : ℕ := 4000

/-- TAP_FLASH_CALLBACKS, flick.cpp line 274. -/
def TAP_FLASH_CALLBACKS : ℤ := 300

inductive PedalMode
  | PEDAL_MODE_NORMAL
  | PEDAL_MODE_EDIT_REVERB
  | PEDAL_MODE_EDIT_DEVICE_SETTINGS
  | PEDAL_MODE_TAP_TEMPO
deriving DecidableEq, Repr

inductive MonoStereoMode
  | MS_MODE_MIMO
  | MS_MODE_MISO
  | MS_MODE_SISO
deriving DecidableEq, Repr

inductive ReverbType
  | REVERB_PLATE
  | REVERB_SPRING
  | REVERB_HALL
deriving DecidableEq, Repr

inductive ReverbKnobMode
  | REVERB_KNOB_ALL_DRY
  | REVERB_KNOB_DRY_WET_MIX
  | REVERB_KNOB_ALL_WET
deriving DecidableEq, Repr

inductive DelayTimingMode
  | DELAY_TIMING_DOTTED_EIGHTH
  | DELAY_TIMING_QUARTER
  | DELAY_TIMING_TRIPLET
deriving DecidableEq, Repr

inductive PolarityMode
  | POLARITY_INVERT_RIGHT
  | POLARITY_NORMAL
  | POLARITY_INVERT_LEFT
deriving DecidableEq, Repr

inductive Footswitch
  | FOOTSWITCH_1
  | FOOTSWITCH_2
deriving DecidableEq, Repr

/-- Numeric value of a MonoStereoMode enumerator, as persisted by the
Settings int field (MIMO = 0, MISO = 1, SISO = 2). -/
def MonoStereoMode.toInt : MonoStereoMode → ℤ
  | MonoStereoMode.MS_MODE_MIMO => 0
  | MonoStereoMode.MS_MODE_MISO => 1
  | MonoStereoMode.MS_MODE_SISO => 2

/-- The static cast from a persisted int back to MonoStereoMode
(loadSettings line 699).  Only 0, 1 and 2 are ever stored. -/
def MonoStereoMode.ofInt (n : ℤ) : MonoStereoMode :=
  if n = 0 then MonoStereoMode.MS_MODE_MIMO
  else if n = 1 then MonoStereoMode.MS_MODE_MISO
  else MonoStereoMode.MS_MODE_SISO

/-- Numeric value of a PolarityMode enumerator (INVERT_RIGHT = 0,
NORMAL = 1, INVERT_LEFT = 2). -/
def PolarityMode.toInt : PolarityMode → ℤ
  | PolarityMode.POLARITY_INVERT_RIGHT => 0
  | PolarityMode.POLARITY_NORMAL => 1
  | PolarityMode.POLARITY_INVERT_LEFT => 2

/-- The static cast from a persisted int back to PolarityMode
(loadSettings line 700). -/
def PolarityMode.ofInt (n : ℤ) : PolarityMode :=
  if n = 0 then PolarityMode.POLARITY_INVERT_RIGHT
  else if n = 1 then PolarityMode.POLARITY_NORMAL
  else PolarityMode.POLARITY_INVERT_LEFT

/-- Numeric value of a ReverbKnobMode enumerator (ALL_DRY = 0,
DRY_WET_MIX = 1, ALL_WET = 2). -/
def ReverbKnobMode.toInt : ReverbKnobMode → ℤ
  | ReverbKnobMode.REVERB_KNOB_ALL_DRY => 0
  | ReverbKnobMode.REVERB_KNOB_DRY_WET_MIX => 1
  | ReverbKnobMode.REVERB_KNOB_ALL_WET => 2

/-- The static cast from a persisted int back to ReverbKnobMode
(loadSettings line 701). -/
def ReverbKnobMode.ofInt (n : ℤ) : ReverbKnobMode :=
  if n = 0 then ReverbKnobMode.REVERB_KNOB_ALL_DRY
  else if n = 1 then ReverbKnobMode.REVERB_KNOB_DRY_WET_MIX
  else ReverbKnobMode.REVERB_KNOB_ALL_WET

/-- kMonoStereoMap, flick.cpp lines 301-305. -/
def kMonoStereoMap : Fin 3 → MonoStereoMode :=
  ![MonoStereoMode.MS_MODE_SISO, MonoStereoMode.MS_MODE_MISO, MonoStereoMode.MS_MODE_MIMO]

/-- kReverbKnobMap, flick.cpp lines 328-332. -/
def kReverbKnobMap : Fin 3 → ReverbKnobMode :=
  ![ReverbKnobMode.REVERB_KNOB_ALL_DRY, ReverbKnobMode.REVERB_KNOB_DRY_WET_MIX,
    ReverbKnobMode.REVERB_KNOB_ALL_WET]

/-- kDelayTimingMap, flick.cpp lines 360-364. -/
def kDelayTimingMap : Fin 3 → DelayTimingMode :=
  ![DelayTimingMode.DELAY_TIMING_DOTTED_EIGHTH, DelayTimingMode.DELAY_TIMING_QUARTER,
    DelayTimingMode.DELAY_TIMING_TRIPLET]

/-- kDelayTimingMultiplier, flick.cpp lines 366-370, indexed by the
timing mode. -/
def kDelayTimingMultiplier : DelayTimingMode → ℚ
  | DelayTimingMode.DELAY_TIMING_DOTTED_EIGHTH => 75/100
  | DelayTimingMode.DELAY_TIMING_QUARTER => 1
  | DelayTimingMode.DELAY_TIMING_TRIPLET => 6666/10000

/-- kPolarityMap, flick.cpp lines 379-383. -/
def kPolarityMap : Fin 3 → PolarityMode :=
  ![PolarityMode.POLARITY_INVERT_RIGHT, PolarityMode.POLARITY_NORMAL,
    PolarityMode.POLARITY_INVERT_LEFT]

/-- switchPosForValue, flick.cpp lines 621-627: reverse lookup of the
switch position for a value in a 3-element map, defaulting to MIDDLE. -/
def switchPosForValue {T : Type} [DecidableEq T] (map : Fin 3 → T) (value : T) : Fin 3 :=
  if map 0 = value then 0
  else if map 1 = value then 1
  else if map 2 = value then 2
  else 1

/-! ## Settings record and loadSettings (flick.cpp) -/

/-- The persisted Settings struct, flick.cpp lines 390-430.  Enum-typed
globals are stored through their int values. -/
structure Settings where
  version : ℤ
  decay : ℚ
  diffusion : ℚ
  input_cutoff_freq : ℚ
  tank_cutoff_freq : ℚ
  tank_mod_speed_pos : ℤ
  tank_mod_depth_pos : ℤ
  tank_mod_shape_pos : ℤ
  pre_delay : ℚ
  mono_stereo_mode : ℤ
  polarity_mode : ℤ
  reverb_knob_mode : ℤ
  bypass_reverb : Bool
  bypass_tremolo : Bool
  bypass_delay : Bool
  tapped_delay_samples : ℚ
deriving DecidableEq, Repr

/-- updateReverbScales, flick.cpp lines 645-657: the pair
(reverb_dry_scale_factor, reverb_reverse_scale_factor). -/
def updateReverbScales (mode : MonoStereoMode) : ℚ × ℚ :=
  match mode with
  | MonoStereoMode.MS_MODE_MIMO => (5, 2/10)
  | MonoStereoMode.MS_MODE_MISO => (5/2, 4/10)
  | MonoStereoMode.MS_MODE_SISO => (5/2, 4/10)

/-- The global state written by loadSettings, flick.cpp lines 691-707:
the reverb parameter mirror, the three mode globals, the bypass flags,
the persisted tapped delay, and the reverb scale factors recomputed by
updateReverbScales. -/
structure LoadedState where
  plate_decay : ℚ
  plate_diffusion : ℚ
  plate_input_damp_high : ℚ
  plate_tank_damp_high : ℚ
  plate_mod_speed_pos : ℤ
  plate_mod_depth_pos : ℤ
  plate_mod_shape_pos : ℤ
  plate_pre_delay : ℚ
  mono_stereo_mode : MonoStereoMode
  polarity_mode : PolarityMode
  knob_mode : ReverbKnobMode
  bypass_reverb : Bool
  bypass_tremolo : Bool
  bypass_delay : Bool
  tapped_delay_samples : ℚ
  reverb_dry_scale_factor : ℚ
  reverb_reverse_scale_factor : ℚ
deriving DecidableEq, Repr

/-- The field-by-field assignment block of loadSettings (lines 691-707)
applied to a settings record. -/
def applyLoad (s : Settings) : LoadedState :=
  { plate_decay := s.decay
    plate_diffusion := s.diffusion
    plate_input_damp_high := s.input_cutoff_freq
    plate_tank_damp_high := s.tank_cutoff_freq
    plate_mod_speed_pos := s.tank_mod_speed_pos
    plate_mod_depth_pos := s.tank_mod_depth_pos
    plate_mod_shape_pos := s.tank_mod_shape_pos
    plate_pre_delay := s.pre_delay
    mono_stereo_mode := MonoStereoMode.ofInt s.mono_stereo_mode
    polarity_mode := PolarityMode.ofInt s.polarity_mode
    knob_mode := ReverbKnobMode.ofInt s.reverb_knob_mode
    bypass_reverb := s.bypass_reverb
    bypass_tremolo := s.bypass_tremolo
    bypass_delay := s.bypass_delay
    tapped_delay_samples := s.tapped_delay_samples
    reverb_dry_scale_factor := (updateReverbScales (MonoStereoMode.ofInt s.mono_stereo_mode)).1
    reverb_reverse_scale_factor := (updateReverbScales (MonoStereoMode.ofInt s.mono_stereo_mode)).2 }

/-- loadSettings, flick.cpp lines 678-710.  The stored record is read; on
a version mismatch SavedSettings.RestoreDefaults() replaces it with the
compiled-in defaults and loadSettings recurses.  The recursion is modelled
with fuel; none means fuel ran out.  Returns the final stored record and
the loaded global state. -/
def loadSettings : ℕ → Settings → Settings → Option (Settings × LoadedState)
  | 0, _, _ => none
  | fuel + 1, stored, defaults =>
    if stored.version ≠ SETTINGS_VERSION then
      loadSettings fuel defaults defaults
    else
      some (stored, applyLoad stored)

/-- The compiled-in default settings record built in main, flick.cpp
lines 1489-1506.  The reverb mirror fields hold their initializers from
ReverbOrchestrator (lines 460-469), unchanged up to this point of main. -/
def defaultSettings : Settings :=
  { version := SETTINGS_VERSION
    decay := 8/10
    diffusion := 85/100
    input_cutoff_freq := 725/1000
    tank_cutoff_freq := 725/1000
    tank_mod_speed_pos := 2
    tank_mod_depth_pos := 2
    tank_mod_shape_pos := 1
    pre_delay := 0
    mono_stereo_mode := MonoStereoMode.MS_MODE_MIMO.toInt
    polarity_mode := PolarityMode.POLARITY_NORMAL.toInt
    reverb_knob_mode := ReverbKnobMode.REVERB_KNOB_DRY_WET_MIX.toInt
    bypass_reverb := true
    bypass_tremolo := true
    bypass_delay := true
    tapped_delay_samples := 0 }

/-! ## Orchestrator state and the footswitch handlers (flick.cpp)

Hardware reads are supplied by an Env record: the millisecond clock
System::GetNow(), the p_knob_n.Process() readings, hw.GetKnobValue, the
toggle switch positions and the raw footswitch levels.  The Env is held
fixed across one handler invocation.  uint32 timestamps are modelled as
naturals; the uint32 subtractions in registerTap and the auto-exit check
coincide with truncated natural subtraction as long as the clock has not
wrapped, which the theorems assume through monotone timestamps. -/

/-- State of flick::SwitchCapture, parameter_capture.cpp lines 64-97. -/
structure SwitchCapture where
  captured_switch_value : ℤ
  is_frozen : Bool
  frozen_value : ℤ
deriving DecidableEq, Repr

/-- SwitchCapture::Capture (lines 71-75); pos is the toggle switch
position read inside the call. -/
def SwitchCapture.Capture (s : SwitchCapture) (pos frozen : ℤ) : SwitchCapture :=
  { s with captured_switch_value := pos, frozen_value := frozen, is_frozen := true }

/-- SwitchCapture::Process (lines 77-93). -/
def SwitchCapture.Process (s : SwitchCapture) (current : ℤ) : ℤ × SwitchCapture :=
  if s.is_frozen = false then
    (current, s)
  else if current ≠ s.captured_switch_value then
    (current, { s with is_frozen := false })
  else
    (s.frozen_value, s)

/-- SwitchCapture::Reset (lines 95-97). -/
def SwitchCapture.Reset (s : SwitchCapture) : SwitchCapture :=
  { s with is_frozen := false }

/-- TapTempoState, flick.cpp lines 598-611.  ts0 is the newest of the
three tap timestamps. -/
structure TapTempoState where
  ts0 : ℕ
  ts1 : ℕ
  ts2 : ℕ
  tap_count : ℕ
  tapped_delay_samples : ℚ
  tapped_tempo_ms : ℚ
  last_tap_time : ℕ
  tap_flash_counter : ℤ
  just_exited_tap_tempo : Bool
  knob_baseline : ℚ
  delay_knob_capture : KnobCapture
deriving DecidableEq, Repr

/-- The ReverbOrchestrator globals, flick.cpp lines 447-470. -/
structure ReverbOrchestrator where
  current_type : ReverbType
  knob_mode : ReverbKnobMode
  dry : ℚ
  wet : ℚ
  plate_pre_delay : ℚ
  plate_decay : ℚ
  plate_diffusion : ℚ
  plate_input_damp_high : ℚ
  plate_tank_damp_high : ℚ
  plate_mod_speed_pos : ℤ
  plate_mod_depth_pos : ℤ
  plate_mod_shape_pos : ℤ
deriving DecidableEq, Repr

/-- The orchestrator globals of flick.cpp that the footswitch handlers
read or write.  current_reverb_cleared is a ghost flag recording that
Clear() has been invoked on the active reverb object (lines 931-933);
current_reverb is non-null from initialization on, so the null check of
line 931 always passes. -/
structure OrchState where
  pedal_mode : PedalMode
  mono_stereo_mode : MonoStereoMode
  polarity_mode : PolarityMode
  bypass_reverb : Bool
  bypass_tremolo : Bool
  bypass_delay : Bool
  reverb : ReverbOrchestrator
  tap : TapTempoState
  settings : Settings
  trigger_settings_save : Bool
  trigger_dfu_mode : Bool
  delay_time_target : ℚ
  reverb_dry_scale_factor : ℚ
  reverb_reverse_scale_factor : ℚ
  p_knob_2_capture : KnobCapture
  p_knob_3_capture : KnobCapture
  p_knob_4_capture : KnobCapture
  p_knob_5_capture : KnobCapture
  p_knob_6_capture : KnobCapture
  p_sw1_capture : SwitchCapture
  p_sw2_capture : SwitchCapture
  p_sw3_capture : SwitchCapture
  current_reverb_cleared : Bool
deriving DecidableEq, Repr

/-- The hardware environment visible to one handler invocation. -/
structure Env where
  now : ℕ
  knob2 : ℚ
  knob3 : ℚ
  knob4 : ℚ
  knob5 : ℚ
  knob6 : ℚ
  hw_knob4 : ℚ
  toggle1 : Fin 3
  toggle2 : Fin 3
  toggle3 : Fin 3
  fs1_pressed : Bool
  fs2_pressed : Bool
deriving DecidableEq, Repr

/-- saveSettings, flick.cpp lines 712-727. -/
def saveSettings (s : OrchState) : OrchState :=
  { s with
    settings := { s.settings with
      version := SETTINGS_VERSION
      decay := s.reverb.plate_decay
      diffusion := s.reverb.plate_diffusion
      input_cutoff_freq := s.reverb.plate_input_damp_high
      tank_cutoff_freq := s.reverb.plate_tank_damp_high
      tank_mod_speed_pos := s.reverb.plate_mod_speed_pos
      tank_mod_depth_pos := s.reverb.plate_mod_depth_pos
      tank_mod_shape_pos := s.reverb.plate_mod_shape_pos
      pre_delay := s.reverb.plate_pre_delay }
    trigger_settings_save := true }

/-- saveDeviceSettings, flick.cpp lines 729-737. -/
def saveDeviceSettings (s : OrchState) : OrchState :=
  { s with
    settings := { s.settings with
      mono_stereo_mode := s.mono_stereo_mode.toInt
      polarity_mode := s.polarity_mode.toInt
      reverb_knob_mode := s.reverb.knob_mode.toInt }
    trigger_settings_save := true }

/-- saveBypassStates, flick.cpp lines 739-748. -/
def saveBypassStates (s : OrchState) : OrchState :=
  { s with
    settings := { s.settings with
      bypass_reverb := s.bypass_reverb
      bypass_tremolo := s.bypass_tremolo
      bypass_delay := s.bypass_delay
      tapped_delay_samples := s.tap.tapped_delay_samples }
    trigger_settings_save := true }

/-- restoreReverbSettings, flick.cpp lines 751-764 (the push of the
restored values into the plate reverb object is external DSP state and
not part of the orchestrator globals). -/
def restoreReverbSettings (s : OrchState) : OrchState :=
  { s with
    reverb := { s.reverb with
      plate_decay := s.settings.decay
      plate_diffusion := s.settings.diffusion
      plate_input_damp_high := s.settings.input_cutoff_freq
      plate_tank_damp_high := s.settings.tank_cutoff_freq
      plate_mod_speed_pos := s.settings.tank_mod_speed_pos
      plate_mod_depth_pos := s.settings.tank_mod_depth_pos
      plate_mod_shape_pos := s.settings.tank_mod_shape_pos
      plate_pre_delay := s.settings.pre_delay } }

/-- restoreDeviceSettings, flick.cpp lines 767-774. -/
def restoreDeviceSettings (s : OrchState) : OrchState :=
  let ms := MonoStereoMode.ofInt s.settings.mono_stereo_mode
  { s with
    mono_stereo_mode := ms
    polarity_mode := PolarityMode.ofInt s.settings.polarity_mode
    reverb := { s.reverb with
      knob_mode := ReverbKnobMode.ofInt s.settings.reverb_knob_mode }
    reverb_dry_scale_factor := (updateReverbScales ms).1
    reverb_reverse_scale_factor := (updateReverbScales ms).2 }

/-- The body of registerTap on the tap state, flick.cpp lines 836-866,
except for the saveBypassStates call (modelled in OrchState.registerTap).
The interval loop of lines 849-851 runs over the list of the three
timestamp slots. -/
def TapTempoState.registerTapCore (now : ℕ) (t : TapTempoState) : TapTempoState :=
  let ts2 := t.ts1
  let ts1 := t.ts0
  let ts0 := now
  let cnt := if t.tap_count < 3 then t.tap_count + 1 else t.tap_count
  if 2 ≤ cnt then
    let intervals : ℕ := cnt - 1
    let tss : List ℕ := [ts0, ts1, ts2]
    let total : ℕ :=
      (List.range intervals).foldl (fun acc i => acc + (tss.getD i 0 - tss.getD (i + 1) 0)) 0
    let avg_ms : ℚ := (total : ℚ) / (intervals : ℚ)
    let samples0 := avg_ms * SAMPLE_RATE / 1000
    let min_delay := SAMPLE_RATE * DELAY_TIME_MIN_SECONDS
    let samples1 := if samples0 < min_delay then min_delay else samples0
    let samples2 := if samples1 > MAX_DELAY then MAX_DELAY else samples1
    { t with ts0 := ts0, ts1 := ts1, ts2 := ts2, tap_count := cnt,
             tapped_delay_samples := samples2, tapped_tempo_ms := avg_ms,
             last_tap_time := now, tap_flash_counter := TAP_FLASH_CALLBACKS }
  else
    { t with ts0 := ts0, ts1 := ts1, ts2 := ts2, tap_count := cnt,
             last_tap_time := now, tap_flash_counter := TAP_FLASH_CALLBACKS }

/-- registerTap, flick.cpp lines 836-866, on the orchestrator state
(includes the saveBypassStates call guarded by tap_count >= 2). -/
def OrchState.registerTap (s : OrchState) (now : ℕ) : OrchState :=
  let t := s.tap.registerTapCore now
  let s1 := { s with tap := t }
  if 2 ≤ t.tap_count then saveBypassStates s1 else s1

/-- enterTapTempo, flick.cpp lines 780-816.  The 32 warm-up calls of
p_knob_4.Process() converge the smoothing filter to the live reading, so
both the baseline recorded by Capture and the frozen argument are the
env knob4 reading. -/
def enterTapTempo (env : Env) (s : OrchState) : OrchState :=
  let cap := s.tap.delay_knob_capture.Capture env.knob4 env.knob4
  let current_timing := kDelayTimingMap env.toggle3
  let tds := s.delay_time_target / kDelayTimingMultiplier current_timing
  let t := { s.tap with
    delay_knob_capture := cap
    tapped_delay_samples := tds
    tap_count := 0
    ts0 := 0, ts1 := 0, ts2 := 0
    tap_flash_counter := 0
    tapped_tempo_ms := tds / SAMPLE_RATE * 1000
    last_tap_time := env.now }
  let s1 := { s with tap := t }
  let s2 := if s1.bypass_delay then saveBypassStates { s1 with bypass_delay := false } else s1
  { s2 with pedal_mode := PedalMode.PEDAL_MODE_TAP_TEMPO }

/-- exitTapTempo, flick.cpp lines 818-834. -/
def exitTapTempo (env : Env) (s : OrchState) : OrchState :=
  let knob_was_moved : Bool := !s.tap.delay_knob_capture.IsFrozen
  let t0 : TapTempoState := { s.tap with delay_knob_capture := s.tap.delay_knob_capture.Reset }
  let t : TapTempoState :=
    if knob_was_moved = true ∨ t0.tapped_delay_samples = 0 then
      { t0 with tapped_delay_samples := 0, knob_baseline := -1 }
    else
      { t0 with knob_baseline := env.hw_knob4 }
  let s1 := saveBypassStates { s with tap := t }
  { s1 with pedal_mode := PedalMode.PEDAL_MODE_NORMAL }

/-- handleNormalPress, flick.cpp lines 872-942. -/
def handleNormalPress (env : Env) (footswitch : Footswitch) (s : OrchState) : OrchState :=
  if s.pedal_mode = PedalMode.PEDAL_MODE_TAP_TEMPO then
    if footswitch = Footswitch.FOOTSWITCH_1 then
      let s1 := exitTapTempo env s
      { s1 with tap := { s1.tap with just_exited_tap_tempo := true } }
    else
      s.registerTap env.now
  else
    let s0 := { s with tap := { s.tap with just_exited_tap_tempo := false } }
    if s0.pedal_mode = PedalMode.PEDAL_MODE_EDIT_REVERB then
      let s1 := if footswitch = Footswitch.FOOTSWITCH_2 then saveSettings s0
                else restoreReverbSettings s0
      { s1 with
        p_knob_2_capture := s1.p_knob_2_capture.Reset
        p_knob_3_capture := s1.p_knob_3_capture.Reset
        p_knob_4_capture := s1.p_knob_4_capture.Reset
        p_knob_5_capture := s1.p_knob_5_capture.Reset
        p_knob_6_capture := s1.p_knob_6_capture.Reset
        p_sw1_capture := s1.p_sw1_capture.Reset
        p_sw2_capture := s1.p_sw2_capture.Reset
        p_sw3_capture := s1.p_sw3_capture.Reset
        pedal_mode := PedalMode.PEDAL_MODE_NORMAL }
    else if s0.pedal_mode = PedalMode.PEDAL_MODE_EDIT_DEVICE_SETTINGS then
      let s1 := if footswitch = Footswitch.FOOTSWITCH_2 then saveDeviceSettings s0
                else restoreDeviceSettings s0
      { s1 with
        p_sw1_capture := s1.p_sw1_capture.Reset
        p_sw2_capture := s1.p_sw2_capture.Reset
        p_sw3_capture := s1.p_sw3_capture.Reset
        pedal_mode := PedalMode.PEDAL_MODE_NORMAL }
    else
      if footswitch = Footswitch.FOOTSWITCH_1 then
        let b := !s0.bypass_reverb
        let s1 := { s0 with bypass_reverb := b }
        let s2 := if b then { s1 with current_reverb_cleared := true } else s1
        saveBypassStates s2
      else
        saveBypassStates { s0 with bypass_tremolo := !s0.bypass_tremolo }

/-- handleDoublePress, flick.cpp lines 944-978. -/
def handleDoublePress (env : Env) (footswitch : Footswitch) (s : OrchState) : OrchState :=
  if s.tap.just_exited_tap_tempo then
    { s with tap := { s.tap with just_exited_tap_tempo := false } }
  else if s.pedal_mode = PedalMode.PEDAL_MODE_TAP_TEMPO then
    if footswitch = Footswitch.FOOTSWITCH_2 then s.registerTap env.now else s
  else if s.pedal_mode = PedalMode.PEDAL_MODE_EDIT_REVERB ∨
          s.pedal_mode = PedalMode.PEDAL_MODE_EDIT_DEVICE_SETTINGS then
    s
  else
    let s1 := handleNormalPress env footswitch s
    if footswitch = Footswitch.FOOTSWITCH_1 then
      enterTapTempo env s1
    else
      saveBypassStates { s1 with bypass_delay := !s1.bypass_delay }

/-- handleLongPress, flick.cpp lines 980-1025. -/
def handleLongPress (env : Env) (footswitch : Footswitch) (s : OrchState) : OrchState :=
  if s.tap.just_exited_tap_tempo then
    { s with tap := { s.tap with just_exited_tap_tempo := false } }
  else if s.pedal_mode = PedalMode.PEDAL_MODE_EDIT_REVERB ∨
          s.pedal_mode = PedalMode.PEDAL_MODE_EDIT_DEVICE_SETTINGS ∨
          s.pedal_mode = PedalMode.PEDAL_MODE_TAP_TEMPO then
    s
  else
    let s1 := handleNormalPress env footswitch s
    let both_pressed := env.fs1_pressed && env.fs2_pressed
    if both_pressed then
      { s1 with trigger_dfu_mode := true }
    else if footswitch = Footswitch.FOOTSWITCH_1 then
      { s1 with
        p_knob_2_capture := s1.p_knob_2_capture.Capture env.knob2 s1.reverb.plate_pre_delay
        p_knob_3_capture := s1.p_knob_3_capture.Capture env.knob3 s1.reverb.plate_decay
        p_knob_4_capture := s1.p_knob_4_capture.Capture env.knob4 s1.reverb.plate_diffusion
        p_knob_5_capture := s1.p_knob_5_capture.Capture env.knob5 s1.reverb.plate_input_damp_high
        p_knob_6_capture := s1.p_knob_6_capture.Capture env.knob6 s1.reverb.plate_tank_damp_high
        p_sw1_capture := s1.p_sw1_capture.Capture (env.toggle1 : ℕ) s1.reverb.plate_mod_speed_pos
        p_sw2_capture := s1.p_sw2_capture.Capture (env.toggle2 : ℕ) s1.reverb.plate_mod_depth_pos
        p_sw3_capture := s1.p_sw3_capture.Capture (env.toggle3 : ℕ) s1.reverb.plate_mod_shape_pos
        bypass_reverb := false
        pedal_mode := PedalMode.PEDAL_MODE_EDIT_REVERB }
    else
      { s1 with
        p_sw1_capture := s1.p_sw1_capture.Capture (env.toggle1 : ℕ)
          ((switchPosForValue kReverbKnobMap s1.reverb.knob_mode : Fin 3) : ℕ)
        p_sw2_capture := s1.p_sw2_capture.Capture (env.toggle2 : ℕ)
          ((switchPosForValue kPolarityMap s1.polarity_mode : Fin 3) : ℕ)
        p_sw3_capture := s1.p_sw3_capture.Capture (env.toggle3 : ℕ)
          ((switchPosForValue kMonoStereoMap s1.mono_stereo_mode : Fin 3) : ℕ)
        pedal_mode := PedalMode.PEDAL_MODE_EDIT_DEVICE_SETTINGS }

/-- The tap-tempo auto-exit of the AudioCallback, flick.cpp lines
1155-1158: executed each block while in tap-tempo mode. -/
def tapTempoAutoExitCheck (env : Env) (s : OrchState) : OrchState :=
  if TAP_TEMPO_TIMEOUT_MS < env.now - s.tap.last_tap_time then
    exitTapTempo env s
  else
    s

/-! ## Per-sample channel routing of the AudioCallback (flick.cpp) -/

/-- One iteration of the per-sample loop of AudioCallback restricted to
what depends on the routing and polarity modes: the input routing (lines
1250-1261), the polarity factors (lines 1247-1248) and the output
routing (lines 1342-1348).  The processing between them -- notch
filters, delay, tremolo and reverb mixing, lines 1263-1340 -- is
abstracted as the function chain from the routed internal pair
(s_L, s_R) to the final internal pair, and the theorems below hold for
every such chain. -/
def audioSampleChannels (mode : MonoStereoMode) (pol : PolarityMode)
    (chain : ℚ → ℚ → ℚ × ℚ) (in0 in1 : ℚ) : ℚ × ℚ :=
  let dry_L := in0
  let dry_R := in1
  let s_L := dry_L
  let s_R :=
    if mode = MonoStereoMode.MS_MODE_MIMO ∨ mode = MonoStereoMode.MS_MODE_MISO then
      dry_L
    else
      dry_R
  let c := chain s_L s_R
  let polarity_L : ℚ := if pol = PolarityMode.POLARITY_INVERT_LEFT then -1 else 1
  let polarity_R : ℚ := if pol = PolarityMode.POLARITY_INVERT_RIGHT then -1 else 1
  if mode = MonoStereoMode.MS_MODE_MIMO then
    ((c.1 * (1/2) + c.2 * (1/2)) * polarity_L, 0)
  else
    (c.1 * polarity_L, c.2 * polarity_R)

/-! ## Spec-side definitions (written from the wording of the spec, for
refinement comparisons only) -/

/-- Written from the spec wording for the tap estimate: the average of
the intervals between the retained consecutive taps (timestamps listed
newest first), converted to a sample count at the sample rate and clamped
to the closed range from the minimum delay (0.05 s of samples) to the
maximum delay (2 s of samples). -/
def specTapEstimate (taps : List ℕ) : ℚ :=
  let intervals := (taps.zip taps.tail).map (fun p => ((p.1 - p.2 : ℕ) : ℚ))
  let avg : ℚ := intervals.sum / (intervals.length : ℚ)
  min (max (avg * SAMPLE_RATE / 1000) (SAMPLE_RATE * DELAY_TIME_MIN_SECONDS)) MAX_DELAY

/-! ## Concrete fixture states used by witnesses and counterexamples -/

/-- A pass-through KnobCapture with the default 5 percent threshold. -/
def sampleKnobCapture : KnobCapture := ⟨0, 0, false, 1/20⟩

/-- A pass-through SwitchCapture. -/
def sampleSwitchCapture : SwitchCapture := ⟨0, false, 0⟩

/-- A quiescent tap-tempo state (as after boot with no persisted taps). -/
def sampleTap : TapTempoState :=
  ⟨0, 0, 0, 0, 0, 0, 0, 0, false, -1, sampleKnobCapture⟩

/-- The ReverbOrchestrator initializer values, flick.cpp lines 447-470. -/
def sampleReverb : ReverbOrchestrator :=
  ⟨ReverbType.REVERB_PLATE, ReverbKnobMode.REVERB_KNOB_DRY_WET_MIX, 1, 1/2,
   0, 8/10, 85/100, 725/1000, 725/1000, 2, 2, 1⟩

/-- A concrete orchestrator state in normal mode with the reverb engaged
(bypass_reverb = false) and tremolo and delay bypassed. -/
def sampleOrch : OrchState :=
  { pedal_mode := PedalMode.PEDAL_MODE_NORMAL
    mono_stereo_mode := MonoStereoMode.MS_MODE_MIMO
    polarity_mode := PolarityMode.POLARITY_NORMAL
    bypass_reverb := false
    bypass_tremolo := true
    bypass_delay := true
    reverb := sampleReverb
    tap := sampleTap
    settings := defaultSettings
    trigger_settings_save := false
    trigger_dfu_mode := false
    delay_time_target := 24000
    reverb_dry_scale_factor := 5
    reverb_reverse_scale_factor := 2/10
    p_knob_2_capture := sampleKnobCapture
    p_knob_3_capture := sampleKnobCapture
    p_knob_4_capture := sampleKnobCapture
    p_knob_5_capture := sampleKnobCapture
    p_knob_6_capture := sampleKnobCapture
    p_sw1_capture := sampleSwitchCapture
    p_sw2_capture := sampleSwitchCapture
    p_sw3_capture := sampleSwitchCapture
    current_reverb_cleared := false }

/-- A concrete environment (mid-range knobs, middle toggles, clock at
10 s, both footswitches released). -/
def sampleEnv : Env :=
  ⟨10000, 1/2, 1/2, 1/2, 1/2, 1/2, 1/2, 1, 1, 1, false, false⟩

/-- sampleOrch placed in tap-tempo mode with a fresh capture on the delay
knob and an established tapped delay, as after enterTapTempo plus taps. -/
def tapModeOrch : OrchState :=
  { sampleOrch with
    pedal_mode := PedalMode.PEDAL_MODE_TAP_TEMPO
    tap := { sampleTap with
      tapped_delay_samples := 24000
      tapped_tempo_ms := 500
      last_tap_time := 9000
      delay_knob_capture := ⟨1/2, 1/2, true, 1/20⟩ } }

/-- sampleOrch with the tap-tempo exit suppression flag raised. -/
def flaggedOrch : OrchState :=
  { sampleOrch with tap := { sampleTap with just_exited_tap_tempo := true } }

/-- A concrete SineTremolo state at phase 0 with depth 0.5. -/
def sineFixture : SineTremolo :=
  ⟨⟨Waveform.WAVE_SIN, 0, 0, 0, 1/48000, false, false⟩, 1, 4, 1/2, 0, 48000⟩

/-- A concrete SquareTremolo state at phase 0 with depth 0.5. -/
def squareFixture : SquareTremolo :=
  ⟨⟨Waveform.WAVE_SQUARE_ROUNDED, 0, 0, 0, 1/48000, false, false⟩, 1, 4, 1/2, 0, 48000⟩

/-! ## Theorems -/

/-- C6: for every input value passed to HallReverb::SetDecay, including
values below 0 and above 1, the stored decay coefficient (the per-line
feedback multiplier of the FDN write) lies in the closed interval
[0, 0.999]. -/
theorem setDecay_within_stable_range (x : ℚ) :
    0 ≤ HallReverb.SetDecay x ∧ HallReverb.SetDecay x ≤ 999/1000 := by
  unfold HallReverb.SetDecay
  split_ifs with h1 h2 <;> constructor <;> linarith

/-- Applying the Hadamard butterfly twice and scaling by c each time
multiplies every component by 8 c ^ 2. -/
theorem hadamard_double_eq_scale {α : Type} [CommRing α] (c : α) (v : Vec8 α) :
    hadamardTransform c (hadamardTransform c v) = hadamardScale (8 * c ^ 2) v := by
  ext <;>
    simp only [hadamardTransform, hadamardButterfly, hadamardScale] <;>
    ring

/-- C7: the normalized 8-point Hadamard butterfly of the hall reverb is
its own inverse.  With the exact constant 1 / sqrt 8 over the reals a
double application is the identity; with the float constant
kHadamardNorm = 0.35355339 of the source, a double application scales
every component by a factor k with |k - 1| below 1e-7 (the
floating-point tolerance). -/
theorem hadamard_transform_involutive :
    (∀ v : Vec8 ℝ,
      hadamardTransform (Real.sqrt 8)⁻¹ (hadamardTransform (Real.sqrt 8)⁻¹ v) = v)
    ∧ ∀ v : Vec8 ℚ, ∃ k : ℚ, |k - 1| < 1/10^7 ∧
        hadamardTransform (kHadamardNorm : ℚ) (hadamardTransform kHadamardNorm v) =
          hadamardScale k v := by
  constructor
  · intro v
    rw [hadamard_double_eq_scale]
    have h8 : (8 : ℝ) * ((Real.sqrt 8)⁻¹) ^ 2 = 1 := by
      rw [inv_pow, Real.sq_sqrt (by norm_num : (0:ℝ) ≤ 8)]
      norm_num
    rw [h8]
    ext <;> simp [hadamardScale]
  · intro v
    refine ⟨8 * kHadamardNorm ^ 2, ?_, hadamard_double_eq_scale kHadamardNorm v⟩
    have hneg : (8 * kHadamardNorm ^ 2 - 1 : ℚ) < 0 := by
      rw [kHadamardNorm]; norm_num
    rw [abs_of_neg hneg, kHadamardNorm]
    norm_num

/-- The distance of the smoothed current delay from the target decays
geometrically with ratio 1 - 0.0002 per ProcessSample call. -/
theorem currentAfter_sub_target (t c0 : ℚ) (n : ℕ) :
    DelayEffect.currentAfter t c0 n - t = (9998/10000 : ℚ) ^ n * (c0 - t) := by
  induction n with
  | zero => simp [DelayEffect.currentAfter]
  | succ n ih =>
    have h : DelayEffect.currentAfter t c0 (n + 1) - t
        = (9998/10000 : ℚ) * (DelayEffect.currentAfter t c0 n - t) := by
      simp only [DelayEffect.currentAfter, DelayEffect.smoothStep, fonepole]
      ring
    rw [h, ih, pow_succ]
    ring

/-- C8: after SetDelayTime(target) each ProcessSample call moves the
internal current delay monotonically toward the target without
overshooting (the deviation never grows and never changes sign), the
per-call change never exceeds the fixed smoothing step 0.0002 times the
initial gap, and the current delay converges to the target in the limit
of repeated calls. -/
theorem delay_time_smoothing (t c0 : ℚ) (n : ℕ) :
    |DelayEffect.currentAfter t c0 (n + 1) - t| ≤ |DelayEffect.currentAfter t c0 n - t|
    ∧ 0 ≤ (DelayEffect.currentAfter t c0 n - t) * (c0 - t)
    ∧ |DelayEffect.currentAfter t c0 (n + 1) - DelayEffect.currentAfter t c0 n|
        ≤ (2/10000) * |c0 - t|
    ∧ ∀ ε : ℚ, 0 < ε → ∃ N : ℕ, ∀ m : ℕ, N ≤ m →
        |DelayEffect.currentAfter t c0 m - t| < ε := by
  have key : ∀ m : ℕ, |DelayEffect.currentAfter t c0 m - t|
      = (9998/10000 : ℚ) ^ m * |c0 - t| := by
    intro m
    rw [currentAfter_sub_target, abs_mul, abs_pow, abs_of_nonneg (by norm_num : (0:ℚ) ≤ 9998/10000)]
  have hrange : (0 : ℚ) ≤ 9998/10000 ∧ (9998/10000 : ℚ) ≤ 1 := by norm_num
  refine ⟨?_, ?_, ?_, ?_⟩
  · rw [key, key, pow_succ]
    have hp : (0:ℚ) ≤ (9998/10000 : ℚ) ^ n := pow_nonneg hrange.1 n
    nlinarith [abs_nonneg (c0 - t)]
  · rw [currentAfter_sub_target]
    have hp : (0:ℚ) ≤ (9998/10000 : ℚ) ^ n := pow_nonneg hrange.1 n
    nlinarith [sq_nonneg (c0 - t)]
  · have hd : DelayEffect.currentAfter t c0 (n + 1) - DelayEffect.currentAfter t c0 n
        = -(2/10000) * ((9998/10000 : ℚ) ^ n * (c0 - t)) := by
      have h1 := currentAfter_sub_target t c0 (n + 1)
      have h2 := currentAfter_sub_target t c0 n
      rw [pow_succ] at h1
      linarith
    rw [hd, abs_mul, abs_mul, abs_pow,
      abs_of_nonneg (by norm_num : (0:ℚ) ≤ 9998/10000)]
    have hp1 : (9998/10000 : ℚ) ^ n ≤ 1 := pow_le_one₀ hrange.1 hrange.2
    have hp0 : (0:ℚ) ≤ (9998/10000 : ℚ) ^ n := pow_nonneg hrange.1 n
    have : |(-(2/10000) : ℚ)| = 2/10000 := by norm_num
    rw [this]
    nlinarith [abs_nonneg (c0 - t)]
  · intro ε hε
    rcases eq_or_ne (|c0 - t|) 0 with hz | hz
    · exact ⟨0, fun m _ => by rw [key, hz]; simpa using hε⟩
    · have hpos : 0 < |c0 - t| := lt_of_le_of_ne (abs_nonneg _) (Ne.symm hz)
      obtain ⟨N, hN⟩ := exists_pow_lt_of_lt_one (div_pos hε hpos)
        (by norm_num : (9998/10000 : ℚ) < 1)
      refine ⟨N, fun m hm => ?_⟩
      rw [key]
      have hmono : (9998/10000 : ℚ) ^ m ≤ (9998/10000 : ℚ) ^ N :=
        pow_le_pow_of_le_one hrange.1 hrange.2 hm
      calc (9998/10000 : ℚ) ^ m * |c0 - t|
          ≤ (9998/10000 : ℚ) ^ N * |c0 - t| := by nlinarith
        _ < (ε / |c0 - t|) * |c0 - t| := by nlinarith
        _ = ε := by field_simp

/-- Witness for delay_time_smoothing at target 1, start 0, step 0,
tolerance 1. -/
theorem delay_time_smoothing_witness :
    (0 : ℚ) < 1 ∧ ∃ N : ℕ, ∀ m : ℕ, N ≤ m →
      |DelayEffect.currentAfter 1 0 m - 1| < 1 :=
  ⟨by norm_num, (delay_time_smoothing 1 0 0).2.2.2 1 (by norm_num)⟩

/-- An unfrozen KnobCapture passes every reading through unchanged. -/
theorem processList_passthrough (s : KnobCapture) (h : s.is_frozen = false)
    (rs : List ℚ) : s.ProcessList rs = (rs, s) := by
  induction rs with
  | nil => rfl
  | cons r rs ih =>
    simp [KnobCapture.ProcessList, KnobCapture.Process, h, ih]

/-- A frozen KnobCapture disarms on a reading at or beyond the
threshold and passes everything through from there on. -/
theorem frozen_step_disarm (b f th r : ℚ) (hr : th ≤ |r - b|) (rs : List ℚ) :
    ((KnobCapture.mk b f true th).ProcessList (r :: rs)).1 = r :: rs := by
  have h1 : (KnobCapture.mk b f true th).Process r
      = (r, KnobCapture.mk b f false th) := by
    simp [KnobCapture.Process, hr]
  simp [KnobCapture.ProcessList, h1,
    processList_passthrough (KnobCapture.mk b f false th) rfl]

/-- A frozen KnobCapture holds the frozen value on a reading strictly
below the threshold and stays frozen. -/
theorem frozen_step_hold (b f th r : ℚ) (hr : ¬ th ≤ |r - b|) (rs : List ℚ) :
    ((KnobCapture.mk b f true th).ProcessList (r :: rs)).1
      = f :: ((KnobCapture.mk b f true th).ProcessList rs).1 := by
  have h1 : (KnobCapture.mk b f true th).Process r
      = (f, KnobCapture.mk b f true th) := by
    simp [KnobCapture.Process, hr]
  simp [KnobCapture.ProcessList, h1]

/-- Outputs of a freshly frozen KnobCapture over a reading sequence:
frozen value while every reading so far deviates less than the threshold
from the baseline, the live reading from the first reading at or beyond
the threshold on. -/
theorem frozen_outputs (b f th : ℚ) (rs : List ℚ) (i : ℕ) (hi : i < rs.length) :
    ((∀ j : ℕ, j ≤ i → |rs.getD j 0 - b| < th) →
      ((KnobCapture.mk b f true th).ProcessList rs).1.getD i 0 = f)
    ∧ ((∃ j : ℕ, j ≤ i ∧ th ≤ |rs.getD j 0 - b|) →
      ((KnobCapture.mk b f true th).ProcessList rs).1.getD i 0 = rs.getD i 0) := by
  induction rs generalizing i with
  | nil => simp at hi
  | cons r rs ih =>
    by_cases hr : th ≤ |r - b|
    · constructor
      · intro hall
        have h0 := hall 0 (Nat.zero_le i)
        simp only [List.getD_cons_zero] at h0
        linarith
      · intro _
        rw [frozen_step_disarm b f th r hr rs]
    · have hstep := frozen_step_hold b f th r hr rs
      match i with
      | 0 =>
        constructor
        · intro _
          rw [hstep]
          rfl
        · rintro ⟨j, hj, hdev⟩
          interval_cases j
          simp only [List.getD_cons_zero] at hdev
          exact absurd hdev hr
      | Nat.succ k =>
        have hk : k < rs.length := by
          simpa [Nat.succ_lt_succ_iff] using hi
        constructor
        · intro hall
          rw [hstep]
          simp only [List.getD_cons_succ]
          exact (ih k hk).1 (fun j hj => by
            have := hall (j + 1) (Nat.succ_le_succ hj)
            simpa using this)
        · rintro ⟨j, hj, hdev⟩
          rw [hstep]
          simp only [List.getD_cons_succ]
          match j with
          | 0 =>
            simp only [List.getD_cons_zero] at hdev
            exact absurd hdev hr
          | Nat.succ j0 =>
            exact (ih k hk).2 ⟨j0, Nat.le_of_succ_le_succ hj, by
              simpa using hdev⟩

/-- C1: after Capture(frozenValue) and before Reset, every Process call
returns exactly the frozen value as long as every live reading so far
deviates from the baseline recorded at capture time by strictly less than
the threshold, and returns the live reading on and after the first call
whose deviation reaches or at least equals the threshold (the capture
stays disarmed from then on). -/
theorem knobCapture_freeze_until_threshold (s0 : KnobCapture) (b f : ℚ)
    (rs : List ℚ) (i : ℕ) (hi : i < rs.length) :
    ((∀ j : ℕ, j ≤ i → |rs.getD j 0 - b| < s0.threshold) →
      ((s0.Capture b f).ProcessList rs).1.getD i 0 = f)
    ∧ ((∃ j : ℕ, j ≤ i ∧ s0.threshold ≤ |rs.getD j 0 - b|) →
      ((s0.Capture b f).ProcessList rs).1.getD i 0 = rs.getD i 0) := by
  have hc : s0.Capture b f = KnobCapture.mk b f true s0.threshold := rfl
  rw [hc]
  exact frozen_outputs b f s0.threshold rs i hi

/-- Witness for knobCapture_freeze_until_threshold: with a 5 percent
threshold, baseline 0.5 and frozen value 7, readings
[0.5, 0.51, 0.6, 0.52] produce the frozen value at index 1 and the live
reading at index 3 (threshold crossed at index 2). -/
theorem knobCapture_freeze_until_threshold_witness :
    (((KnobCapture.mk 0 0 false (1/20)).Capture (1/2) 7).ProcessList
        [1/2, 51/100, 3/5, 52/100]).1.getD 1 0 = 7
    ∧ (((KnobCapture.mk 0 0 false (1/20)).Capture (1/2) 7).ProcessList
        [1/2, 51/100, 3/5, 52/100]).1.getD 3 0 = 52/100 := by
  constructor
  · refine (knobCapture_freeze_until_threshold (KnobCapture.mk 0 0 false (1/20))
      (1/2) 7 [1/2, 51/100, 3/5, 52/100] 1 (by norm_num)).1 ?_
    intro j hj
    interval_cases j <;>
      norm_num [List.getD_cons_zero, List.getD_cons_succ, KnobCapture.Capture,
        abs_of_nonneg]
  · refine (knobCapture_freeze_until_threshold (KnobCapture.mk 0 0 false (1/20))
      (1/2) 7 [1/2, 51/100, 3/5, 52/100] 3 (by norm_num)).2 ⟨2, by norm_num, ?_⟩
    norm_num [List.getD_cons_zero, List.getD_cons_succ, KnobCapture.Capture,
      abs_of_nonneg]


/-- C3: loadSettings with a version-mismatched stored record restores the
full compiled-in default record and loads it -- no field of the
mismatched record survives; with a matching version every field is
loaded exactly as stored.  The compiled-in default record carries the
expected version, so one RestoreDefaults round suffices (fuel 2). -/
theorem loadSettings_version_gate (stored defaults : Settings)
    (hdef : defaults.version = SETTINGS_VERSION) :
    (stored.version ≠ SETTINGS_VERSION →
      loadSettings 2 stored defaults = some (defaults, applyLoad defaults))
    ∧ (stored.version = SETTINGS_VERSION →
      loadSettings 2 stored defaults = some (stored, applyLoad stored))
    ∧ defaultSettings.version = SETTINGS_VERSION := by
  refine ⟨?_, ?_, rfl⟩
  · intro h
    simp [loadSettings, h, hdef]
  · intro h
    simp [loadSettings, h]

/-- Witness for loadSettings_version_gate: a stored record stamped with
stale version 7 is fully replaced by the defaults. -/
theorem loadSettings_version_gate_witness :
    loadSettings 2 { defaultSettings with version := 7 } defaultSettings
      = some (defaultSettings, applyLoad defaultSettings) :=
  (loadSettings_version_gate { defaultSettings with version := 7 }
    defaultSettings rfl).1 (by decide)

/-- C4 counterexample: in MS_MODE_MIMO output channel 2 does not
duplicate output channel 1.  With the identity chain and input (1, 0)
the emitted pair is (1, 0): channel 1 carries the averaged signal,
channel 2 is silenced. -/
theorem mimo_second_channel_not_duplicate :
    audioSampleChannels MonoStereoMode.MS_MODE_MIMO PolarityMode.POLARITY_NORMAL
        (fun a b => (a, b)) 1 0 = (1, 0)
    ∧ (audioSampleChannels MonoStereoMode.MS_MODE_MIMO PolarityMode.POLARITY_NORMAL
        (fun a b => (a, b)) 1 0).2
      ≠ (audioSampleChannels MonoStereoMode.MS_MODE_MIMO PolarityMode.POLARITY_NORMAL
        (fun a b => (a, b)) 1 0).1 := by
  constructor
  · norm_num [audioSampleChannels]
    decide
  · norm_num [audioSampleChannels]
    decide

/-- C4 amended: in MS_MODE_MIMO output channel 1 carries the average of
the two internal channels (polarity applied) and output channel 2 is
silenced to 0; in the stereo-out modes (MISO, SISO) each output channel
carries its own signal with its own polarity factor; in the mono-in
modes (MIMO, MISO) input channel 2 is ignored -- the channel-1 input
feeds both internal channels. -/
theorem audio_channel_routing (pol : PolarityMode) (chain : ℚ → ℚ → ℚ × ℚ)
    (in0 in1 in1a : ℚ) :
    (audioSampleChannels MonoStereoMode.MS_MODE_MIMO pol chain in0 in1
      = (((chain in0 in0).1 * (1/2) + (chain in0 in0).2 * (1/2)) *
          (if pol = PolarityMode.POLARITY_INVERT_LEFT then -1 else 1), 0))
    ∧ (audioSampleChannels MonoStereoMode.MS_MODE_MISO pol chain in0 in1
      = ((chain in0 in0).1 * (if pol = PolarityMode.POLARITY_INVERT_LEFT then -1 else 1),
         (chain in0 in0).2 * (if pol = PolarityMode.POLARITY_INVERT_RIGHT then -1 else 1)))
    ∧ (audioSampleChannels MonoStereoMode.MS_MODE_SISO pol chain in0 in1
      = ((chain in0 in1).1 * (if pol = PolarityMode.POLARITY_INVERT_LEFT then -1 else 1),
         (chain in0 in1).2 * (if pol = PolarityMode.POLARITY_INVERT_RIGHT then -1 else 1)))
    ∧ audioSampleChannels MonoStereoMode.MS_MODE_MIMO pol chain in0 in1
        = audioSampleChannels MonoStereoMode.MS_MODE_MIMO pol chain in0 in1a
    ∧ audioSampleChannels MonoStereoMode.MS_MODE_MISO pol chain in0 in1
        = audioSampleChannels MonoStereoMode.MS_MODE_MISO pol chain in0 in1a := by
  refine ⟨?_, ?_, ?_, ?_, ?_⟩ <;> simp [audioSampleChannels]

/-- Raising to a floor and then capping to a ceiling is the same as
clamping into the closed interval. -/
theorem raise_cap_eq_clamp (x lo hi : ℚ) (h : lo ≤ hi) :
    (if (if x < lo then lo else x) > hi then hi else if x < lo then lo else x)
      = min (max x lo) hi := by
  simp only [min_def, max_def]
  split_ifs <;> linarith

/-- C5: at 48 kHz, three taps exactly 500 ms apart store a tempo of
500 ms and a delay of 24000 samples (0.5 times the sample rate); a single
tap leaves tempo and delay untouched (the count < 2 guard); and every
estimate produced from two or more retained taps equals the average of
the retained consecutive intervals converted to samples and clamped to
[0.05 s of samples, 2 s of samples] (the spec-side formula
specTapEstimate). -/
theorem registerTap_tempo_estimation (t : TapTempoState) (start now : ℕ) :
    (t.tap_count = 0 →
      ((((t.registerTapCore start).registerTapCore (start + 500)).registerTapCore
          (start + 1000)).tapped_tempo_ms = 500
        ∧ (((t.registerTapCore start).registerTapCore (start + 500)).registerTapCore
          (start + 1000)).tapped_delay_samples = 24000
        ∧ (24000 : ℚ) = (1/2) * SAMPLE_RATE))
    ∧ (t.tap_count = 0 →
      ((t.registerTapCore now).tapped_delay_samples = t.tapped_delay_samples
        ∧ (t.registerTapCore now).tapped_tempo_ms = t.tapped_tempo_ms))
    ∧ (t.tap_count = 1 →
      (t.registerTapCore now).tapped_delay_samples = specTapEstimate [now, t.ts0])
    ∧ ((t.tap_count = 2 ∨ t.tap_count = 3) →
      (t.registerTapCore now).tapped_delay_samples
        = specTapEstimate [now, t.ts0, t.ts1]) := by
  refine ⟨?_, ?_, ?_, ?_⟩
  · intro h
    have step1 : t.registerTapCore start
        = { t with
            ts0 := start
            ts1 := t.ts0
            ts2 := t.ts1
            tap_count := 1
            last_tap_time := start
            tap_flash_counter := TAP_FLASH_CALLBACKS } := by
      simp [TapTempoState.registerTapCore, h]
    have step2 : (t.registerTapCore start).registerTapCore (start + 500)
        = { t with
            ts0 := start + 500
            ts1 := start
            ts2 := t.ts0
            tap_count := 2
            tapped_delay_samples := 24000
            tapped_tempo_ms := 500
            last_tap_time := start + 500
            tap_flash_counter := TAP_FLASH_CALLBACKS } := by
      rw [step1]
      simp only [TapTempoState.registerTapCore]
      norm_num [SAMPLE_RATE, DELAY_TIME_MIN_SECONDS, MAX_DELAY, List.range_succ]
    have step3 : ((t.registerTapCore start).registerTapCore (start + 500)).registerTapCore
          (start + 1000)
        = { t with
            ts0 := start + 1000
            ts1 := start + 500
            ts2 := start
            tap_count := 3
            tapped_delay_samples := 24000
            tapped_tempo_ms := 500
            last_tap_time := start + 1000
            tap_flash_counter := TAP_FLASH_CALLBACKS } := by
      rw [step2]
      simp only [TapTempoState.registerTapCore]
      norm_num [SAMPLE_RATE, DELAY_TIME_MIN_SECONDS, MAX_DELAY, List.range_succ]
    rw [step3]
    norm_num [SAMPLE_RATE]
  · intro h
    simp [TapTempoState.registerTapCore, h]
  · intro h
    simp only [TapTempoState.registerTapCore, h]
    norm_num [specTapEstimate, List.range_succ, SAMPLE_RATE, DELAY_TIME_MIN_SECONDS,
      MAX_DELAY, raise_cap_eq_clamp]
  · intro h
    have hcnt : (if t.tap_count < 3 then t.tap_count + 1 else t.tap_count) = 3 := by
      rcases h with h | h <;> simp [h]
    simp only [TapTempoState.registerTapCore, hcnt]
    norm_num [specTapEstimate, List.range_succ, SAMPLE_RATE, DELAY_TIME_MIN_SECONDS,
      MAX_DELAY, raise_cap_eq_clamp]

/-- Witness for registerTap_tempo_estimation: from a fresh tap state,
taps at 1000, 1500 and 2000 ms yield tempo 500 ms and 24000 samples. -/
theorem registerTap_tempo_estimation_witness :
    (((sampleTap.registerTapCore 1000).registerTapCore 1500).registerTapCore
        2000).tapped_tempo_ms = 500
    ∧ (((sampleTap.registerTapCore 1000).registerTapCore 1500).registerTapCore
        2000).tapped_delay_samples = 24000 := by
  have h := (registerTap_tempo_estimation sampleTap 1000 0).1 rfl
  exact ⟨h.1, h.2.1⟩



/-- Junk-division cancellation shape of the square-wave normalization:
a / (a * A) * B * a = B / A * a holds over the rationals for all values,
including a = 0 and A = 0. -/
theorem div_mul_cancel_shape (a A B : ℚ) : a / (a * A) * B * a = B / A * a := by
  rcases eq_or_ne a 0 with h | h
  · simp [h]
  · rcases eq_or_ne A 0 with hA | hA
    · simp [hA]
    · field_simp
      ring

/-- The sample produced by FlickOscillator::Process is the waveform value
at the pre-advance phase times the amplitude (the phase-wrap branch does
not affect the produced sample). -/
theorem oscillator_process_fst (sinf atanf : ℚ → ℚ) (s : FlickOscillator) :
    (s.Process sinf atanf).1 =
      (match s.waveform with
       | Waveform.WAVE_SIN => sinf (s.phase * TWOPI_F)
       | Waveform.WAVE_SQUARE_ROUNDED =>
         s.amp / (s.amp * atanf (1 / (4/100)))
           * atanf (sinf (TWOPI_F * s.phase) / (4/100))) * s.amp := by
  simp only [FlickOscillator.Process, apply_ite Prod.fst, ite_self]

/-- C9: each ProcessSample of the sine and square tremolos multiplies
both input channels by the gain (1 - depth/2) + lfo * (depth/2), where
depth is the value passed to SetDepth and lfo is the unit-amplitude
waveform at the current phase -- the sine value for SineTremolo, and the
arctangent-soft-clipped sine normalized by atan(1/0.04) = atan 25 for
SquareTremolo -- and GetLastLFOValue afterwards returns that same gain. -/
theorem tremolo_gain_formula (sinf atanf : ℚ → ℚ) (s : SineTremolo)
    (q : SquareTremolo) (in_L in_R : ℚ)
    (hs : s.osc.waveform = Waveform.WAVE_SIN)
    (hq : q.osc.waveform = Waveform.WAVE_SQUARE_ROUNDED) :
    ((s.ProcessSample sinf atanf in_L in_R).1
        = (in_L * ((1 - s.depth / 2) + sinf (s.osc.phase * TWOPI_F) * (s.depth / 2)),
           in_R * ((1 - s.depth / 2) + sinf (s.osc.phase * TWOPI_F) * (s.depth / 2))))
    ∧ (s.ProcessSample sinf atanf in_L in_R).2.GetLastLFOValue
        = (1 - s.depth / 2) + sinf (s.osc.phase * TWOPI_F) * (s.depth / 2)
    ∧ ((q.ProcessSample sinf atanf in_L in_R).1
        = (in_L * ((1 - q.depth / 2)
             + atanf (sinf (TWOPI_F * q.osc.phase) / (4/100)) / atanf 25 * (q.depth / 2)),
           in_R * ((1 - q.depth / 2)
             + atanf (sinf (TWOPI_F * q.osc.phase) / (4/100)) / atanf 25 * (q.depth / 2))))
    ∧ (q.ProcessSample sinf atanf in_L in_R).2.GetLastLFOValue
        = (1 - q.depth / 2)
            + atanf (sinf (TWOPI_F * q.osc.phase) / (4/100)) / atanf 25 * (q.depth / 2) := by
  have hsine : ∀ a : ℚ,
      (((s.osc.SetFreq s.speed).SetAmp a).Process sinf atanf).1
        = sinf (s.osc.phase * TWOPI_F) * a := by
    intro a
    rw [oscillator_process_fst]
    simp [FlickOscillator.SetFreq, FlickOscillator.SetAmp, hs]
  have hsquare : ∀ a : ℚ,
      (((q.osc.SetFreq q.speed).SetAmp a).Process sinf atanf).1
        = atanf (sinf (TWOPI_F * q.osc.phase) / (4/100)) / atanf 25 * a := by
    intro a
    rw [oscillator_process_fst]
    simp only [FlickOscillator.SetFreq, FlickOscillator.SetAmp, hq]
    rw [div_mul_cancel_shape]
    norm_num
  refine ⟨?_, ?_, ?_, ?_⟩
  · simp only [SineTremolo.ProcessSample, hsine]
    rw [Prod.ext_iff]
    constructor <;> (simp only []; ring)
  · simp only [SineTremolo.ProcessSample, SineTremolo.GetLastLFOValue, hsine]
    ring
  · simp only [SquareTremolo.ProcessSample, hsquare]
    rw [Prod.ext_iff]
    constructor <;> (simp only []; ring)
  · simp only [SquareTremolo.ProcessSample, SquareTremolo.GetLastLFOValue, hsquare]
    ring

/-- Witness for tremolo_gain_formula: with the identity interpretation
of sinf and atanf, phase 0 and depth 0.5, both tremolos report the gain
(1 - 0.25) + 0 = 0.75. -/
theorem tremolo_gain_formula_witness :
    (sineFixture.ProcessSample (fun x => x) (fun x => x) 2 3).2.GetLastLFOValue = 3/4
    ∧ (squareFixture.ProcessSample (fun x => x) (fun x => x) 2 3).2.GetLastLFOValue
        = 3/4 := by
  have h := tremolo_gain_formula (fun x => x) (fun x => x) sineFixture squareFixture
    2 3 rfl rfl
  constructor
  · calc (sineFixture.ProcessSample (fun x => x) (fun x => x) 2 3).2.GetLastLFOValue
        = (1 - sineFixture.depth / 2)
            + (sineFixture.osc.phase * TWOPI_F) * (sineFixture.depth / 2) := h.2.1
      _ = 3/4 := by norm_num [sineFixture]
  · calc (squareFixture.ProcessSample (fun x => x) (fun x => x) 2 3).2.GetLastLFOValue
        = (1 - squareFixture.depth / 2)
            + (TWOPI_F * squareFixture.osc.phase) / (4/100) / 25
              * (squareFixture.depth / 2) := h.2.2.2
      _ = 3/4 := by norm_num [squareFixture]



/-- Projections of handleNormalPress on footswitch 1 in normal mode: the
reverb bypass flag is toggled, the mode stays normal, the suppression
flag ends cleared, and the ghost Clear flag is set exactly when the
toggle turned the bypass on. -/
theorem normalPress_fs1_normal_mode (env : Env) (s : OrchState)
    (hm : s.pedal_mode = PedalMode.PEDAL_MODE_NORMAL) :
    (handleNormalPress env Footswitch.FOOTSWITCH_1 s).bypass_reverb = !s.bypass_reverb
    ∧ (handleNormalPress env Footswitch.FOOTSWITCH_1 s).pedal_mode
        = PedalMode.PEDAL_MODE_NORMAL
    ∧ (handleNormalPress env Footswitch.FOOTSWITCH_1 s).tap.just_exited_tap_tempo = false
    ∧ (handleNormalPress env Footswitch.FOOTSWITCH_1 s).current_reverb_cleared
        = (!s.bypass_reverb || s.current_reverb_cleared) := by
  cases hb : s.bypass_reverb <;>
    simp [handleNormalPress, saveBypassStates, hm, hb]

/-- In normal mode with the suppression flag clear, a double press of
footswitch 1 is the already-processed normal press followed by
enterTapTempo. -/
theorem doublePress_fs1_normal_mode (env : Env) (s : OrchState)
    (hm : s.pedal_mode = PedalMode.PEDAL_MODE_NORMAL)
    (hf : s.tap.just_exited_tap_tempo = false) :
    handleDoublePress env Footswitch.FOOTSWITCH_1 s
      = enterTapTempo env (handleNormalPress env Footswitch.FOOTSWITCH_1 s) := by
  simp [handleDoublePress, hm, hf]

/-- enterTapTempo enters tap-tempo mode and leaves the reverb bypass
flag and the ghost Clear flag untouched. -/
theorem enterTapTempo_proj (env : Env) (s : OrchState) :
    (enterTapTempo env s).pedal_mode = PedalMode.PEDAL_MODE_TAP_TEMPO
    ∧ (enterTapTempo env s).bypass_reverb = s.bypass_reverb
    ∧ (enterTapTempo env s).current_reverb_cleared = s.current_reverb_cleared := by
  refine ⟨rfl, ?_, ?_⟩ <;>
    simp [enterTapTempo, saveBypassStates, apply_ite OrchState.bypass_reverb,
      apply_ite OrchState.current_reverb_cleared]

/-- C2 counterexample: from a concrete tap-tempo state, exiting via a
normal press of footswitch A sets the suppression flag, yet the very
next normal-press event on footswitch A is processed rather than
suppressed -- it toggles the reverb bypass flag. -/
theorem next_normal_press_after_tap_exit_not_suppressed :
    (handleNormalPress sampleEnv Footswitch.FOOTSWITCH_1 tapModeOrch).pedal_mode
        = PedalMode.PEDAL_MODE_NORMAL
    ∧ (handleNormalPress sampleEnv Footswitch.FOOTSWITCH_1
        tapModeOrch).tap.just_exited_tap_tempo = true
    ∧ (handleNormalPress sampleEnv Footswitch.FOOTSWITCH_1
          (handleNormalPress sampleEnv Footswitch.FOOTSWITCH_1 tapModeOrch)).bypass_reverb
        ≠ (handleNormalPress sampleEnv Footswitch.FOOTSWITCH_1 tapModeOrch).bypass_reverb := by
  refine ⟨?_, ?_, ?_⟩ <;> decide

/-- C2 amended: after the footswitch-A exit of tap-tempo mode sets the
suppression flag, the next double-press or long-press event (on either
footswitch, in any mode) is suppressed exactly once -- it clears the
flag and changes nothing else; a normal-press event is not suppressed:
it clears the flag and is processed normally (on footswitch A in normal
mode it toggles the reverb bypass).  The 4-second auto-exit path
(exitTapTempo from the audio callback) never sets the suppression
flag. -/
theorem tap_exit_guard_suppression (env : Env) (fs : Footswitch) (s : OrchState)
    (hj : s.tap.just_exited_tap_tempo = true) :
    handleDoublePress env fs s
        = { s with tap := { s.tap with just_exited_tap_tempo := false } }
    ∧ handleLongPress env fs s
        = { s with tap := { s.tap with just_exited_tap_tempo := false } }
    ∧ (∀ env2 : Env, ∀ s2 : OrchState,
        (exitTapTempo env2 s2).tap.just_exited_tap_tempo
          = s2.tap.just_exited_tap_tempo)
    ∧ (s.pedal_mode = PedalMode.PEDAL_MODE_NORMAL →
        (handleNormalPress env Footswitch.FOOTSWITCH_1 s).bypass_reverb
            = !s.bypass_reverb
        ∧ (handleNormalPress env Footswitch.FOOTSWITCH_1
            s).tap.just_exited_tap_tempo = false) := by
  refine ⟨?_, ?_, ?_, ?_⟩
  · simp [handleDoublePress, hj]
  · simp [handleLongPress, hj]
  · intro env2 s2
    simp [exitTapTempo, saveBypassStates, apply_ite TapTempoState.just_exited_tap_tempo]
  · intro hm
    exact ⟨(normalPress_fs1_normal_mode env s hm).1,
      (normalPress_fs1_normal_mode env s hm).2.2.1⟩

/-- Witness for tap_exit_guard_suppression at a concrete flagged state:
the double press only clears the flag. -/
theorem tap_exit_guard_suppression_witness :
    handleDoublePress sampleEnv Footswitch.FOOTSWITCH_1 flaggedOrch
      = { flaggedOrch with
          tap := { flaggedOrch.tap with just_exited_tap_tempo := false } } :=
  (tap_exit_guard_suppression sampleEnv Footswitch.FOOTSWITCH_1 flaggedOrch rfl).1

/-- C10: in normal mode, a double press of footswitch A arriving after
its normal press has been processed re-invokes the normal-press toggle,
so the reverb bypass flag is back at its pre-gesture value when
tap-tempo mode is entered; but the Clear() performed on the active
reverb by the intermediate bypass is not undone: if the reverb was
active before the gesture, its tail has been silenced although the
bypass flag is net-unchanged. -/
theorem double_press_restores_bypass_but_clear_persists (env env2 : Env) (s : OrchState)
    (hm : s.pedal_mode = PedalMode.PEDAL_MODE_NORMAL)
    (hf : s.tap.just_exited_tap_tempo = false) :
    (handleDoublePress env2 Footswitch.FOOTSWITCH_1
        (handleNormalPress env Footswitch.FOOTSWITCH_1 s)).pedal_mode
      = PedalMode.PEDAL_MODE_TAP_TEMPO
    ∧ (handleDoublePress env2 Footswitch.FOOTSWITCH_1
        (handleNormalPress env Footswitch.FOOTSWITCH_1 s)).bypass_reverb
      = s.bypass_reverb
    ∧ (s.bypass_reverb = false →
        (handleNormalPress env Footswitch.FOOTSWITCH_1 s).current_reverb_cleared = true
        ∧ (handleDoublePress env2 Footswitch.FOOTSWITCH_1
            (handleNormalPress env Footswitch.FOOTSWITCH_1 s)).current_reverb_cleared
          = true) := by
  have h1 := normalPress_fs1_normal_mode env s hm
  have hd := doublePress_fs1_normal_mode env2
    (handleNormalPress env Footswitch.FOOTSWITCH_1 s) h1.2.1 h1.2.2.1
  have h2 := normalPress_fs1_normal_mode env2
    (handleNormalPress env Footswitch.FOOTSWITCH_1 s) h1.2.1
  have he := enterTapTempo_proj env2 (handleNormalPress env2 Footswitch.FOOTSWITCH_1
    (handleNormalPress env Footswitch.FOOTSWITCH_1 s))
  refine ⟨?_, ?_, ?_⟩
  · rw [hd]
    exact he.1
  · rw [hd, he.2.1, h2.1, h1.1, Bool.not_not]
  · intro hb
    constructor
    · rw [h1.2.2.2, hb]
      rfl
    · rw [hd, he.2.2, h2.2.2.2, h1.2.2.2, hb]
      simp

/-- Witness for double_press_restores_bypass_but_clear_persists at the
concrete normal-mode state with the reverb active. -/
theorem double_press_restores_bypass_witness :
    (handleDoublePress sampleEnv Footswitch.FOOTSWITCH_1
        (handleNormalPress sampleEnv Footswitch.FOOTSWITCH_1 sampleOrch)).bypass_reverb
      = sampleOrch.bypass_reverb
    ∧ (handleNormalPress sampleEnv Footswitch.FOOTSWITCH_1
        sampleOrch).current_reverb_cleared = true := by
  have h := double_press_restores_bypass_but_clear_persists sampleEnv sampleEnv
    sampleOrch rfl rfl
  exact ⟨h.2.1, (h.2.2 rfl).1⟩


end Flick
